import Mathlib

/-!
Shallow embedding of `src/main.py` of the telegram-info-checker repository:
the `/get_user_info` endpoint (identifier parsing, user/chat resolution,
response formatting) and its helper functions
(`estimate_account_creation_date`, the `DC_LOCATIONS` table).

Python strings are modelled as Lean `String`s over their character lists
(the inputs of interest are ASCII); Python `int` is `Int`; Python `float`
day arithmetic in the account-age estimator is modelled exactly over `ℚ`.
Optional / possibly-`None` attributes are `Option` fields.  The external
Pyrogram client (network calls) is an `Oracle` of response-valued
functions; wall-clock-dependent date rendering (`strftime`,
`calculate_account_age` via `relativedelta(datetime.now(), ·)`) is likewise
an oracle parameter, since it depends on the current time.
-/

namespace TgInfo

/-- Python `s.lstrip("@")`: drop ALL leading `'@'` characters. -/
def pyLstripAt (s : String) : String :=
  ⟨s.data.dropWhile (fun c => c == '@')⟩

/-- Python `s.isdigit()` on ASCII input: nonempty and all decimal digits. -/
def pyIsdigit (s : String) : Bool :=
  !s.data.isEmpty && s.data.all Char.isDigit

/-- Python `int(s)` for a string of ASCII decimal digits. -/
def pyParseNat (s : String) : Nat :=
  s.data.foldl (fun a c => a * 10 + (c.toNat - 48)) 0

/-- The lookup target of `get_user_info`: `target: Union[int, str]`. -/
inductive Target where
  | int : Int → Target
  | str : String → Target
deriving DecidableEq, Repr

/-- Line 101: `target = int(key) if key.isdigit() else key`. -/
def parseTarget (key : String) : Target :=
  if pyIsdigit key then Target.int (pyParseNat key) else Target.str key

/-- Python `a or b` on two `Optional[str]` values (`None` and `""` falsy). -/
def pyOrOpt (a b : Option String) : Option String :=
  match a with
  | some s => if s == "" then b else some s
  | none => b

/-- Python `a or d` rendering an `Optional[str]` with default `d`. -/
def pyOrStr (a : Option String) (d : String) : String :=
  match a with
  | some s => if s == "" then d else s
  | none => d

/-- Python truthiness of an `Optional[str]` (`None` and `""` falsy). -/
def pyTruthy (a : Option String) : Bool :=
  match a with
  | some s => !(s == "")
  | none => false

/-- Does `hay` start with `pat`?  (list-of-chars form). -/
def startsWithL : List Char → List Char → Bool
  | [], _ => true
  | _ :: _, [] => false
  | p :: ps, c :: cs => p == c && startsWithL ps cs

/-- Python `pat in hay` substring containment on character lists. -/
def containsSub (hay pat : List Char) : Bool :=
  match hay with
  | [] => pat.isEmpty
  | _ :: rest => startsWithL pat hay || containsSub rest pat

/-- Python `s.upper()` on ASCII input. -/
def pyUpper (s : String) : String :=
  ⟨s.data.map Char.toUpper⟩

/-- Python `s.capitalize()` on ASCII input. -/
def pyCapitalize (s : String) : String :=
  match s.data with
  | [] => ""
  | c :: cs => ⟨Char.toUpper c :: cs.map Char.toLower⟩

/-- `'Yes' if b else 'No'`. -/
def yesNo (b : Bool) : String := if b then "Yes" else "No"

/-! ## Proleptic Gregorian calendar, as in Python `datetime.date.toordinal` -/

/-- Gregorian leap year test. -/
def isLeap (y : Nat) : Bool :=
  (y % 4 == 0 && y % 100 != 0) || y % 400 == 0

/-- Days in the months of year `y` strictly before month `m` (1-based). -/
def daysBeforeMonth (y m : Nat) : Nat :=
  let lens : List Nat :=
    [31, if isLeap y then 29 else 28, 31, 30, 31, 30, 31, 31, 30, 31, 30]
  (lens.take (m - 1)).sum

/-- Python `date(y, m, d).toordinal()`: days since 0001-01-01 = day 1. -/
def toOrdinal (y m d : Nat) : Nat :=
  365 * (y - 1) + (y - 1) / 4 - (y - 1) / 100 + (y - 1) / 400
    + daysBeforeMonth y m + d

/-! ## `DC_LOCATIONS` (lines 35–43) and its `.get(·, "Unknown")` lookup -/

def DC_LOCATIONS : List (Int × String) :=
  [(1, "MIA, Miami, USA, US"), (2, "AMS, Amsterdam, Netherlands, NL"),
   (3, "SFO, San Francisco, USA, US"), (4, "GRU, São Paulo, Brazil, BR"),
   (5, "DME, Moscow, Russia, RU"), (7, "SIN, Singapore, SG"),
   (8, "FRA, Frankfurt, Germany, DE"), (9, "IAD, Washington DC, USA, US"),
   (10, "BLR, Bangalore, India, IN"), (11, "TYO, Tokyo, Japan, JP"),
   (12, "BOM, Mumbai, India, IN"), (13, "HKG, Hong Kong, HK"),
   (14, "MAD, Madrid, Spain, ES"), (15, "CDG, Paris, France, FR"),
   (16, "MEX, Mexico City, Mexico, MX"), (17, "YYZ, Toronto, Canada, CA"),
   (18, "MEL, Melbourne, Australia, AU"), (19, "DEL, Delhi, India, IN"),
   (20, "JFK, New York, USA, US"), (21, "LHR, London, UK, GB")]

/-- Line 129: `DC_LOCATIONS.get(getattr(user, "dc_id", None), "Unknown")`.
The `dc_id` attribute may be absent (`none`). -/
def dcGet (o : Option Int) : String :=
  match o with
  | none => "Unknown"
  | some n =>
    match DC_LOCATIONS.find? (fun p => p.1 == n) with
    | some p => p.2
    | none => "Unknown"

/-! ## `estimate_account_creation_date` (lines 54–64) -/

/-- The `reference_points` table (lines 56–61); dates as Gregorian ordinals. -/
def reference_points : List (Int × Nat) :=
  [(100000000, toOrdinal 2013 8 1),
   (1273841502, toOrdinal 2020 8 13),
   (1500000000, toOrdinal 2021 5 1),
   (2000000000, toOrdinal 2022 12 1)]

/-- Python `min(xs, key = fun x => |x.1 - user_id|)` starting from head `x`:
the FIRST element attaining the minimal key is kept (strict `<` to replace). -/
def pyMinAbs (user_id : Int) (x : Int × Nat) (xs : List (Int × Nat)) :
    Int × Nat :=
  xs.foldl
    (fun b q => if (q.1 - user_id).natAbs < (b.1 - user_id).natAbs then q
      else b) x

/-- `min(reference_points, key=lambda x: abs(x[0] - user_id))` (line 62). -/
def closestRef (user_id : Int) : Int × Nat :=
  pyMinAbs user_id (100000000, toOrdinal 2013 8 1)
    [(1273841502, toOrdinal 2020 8 13),
     (1500000000, toOrdinal 2021 5 1),
     (2000000000, toOrdinal 2022 12 1)]

/-- Lines 62–64: pick the closest reference, extrapolate
`days_diff = (user_id - closest_user_id) / 20_000_000`, and return
`closest_date + timedelta(days=days_diff)` as a rational day ordinal. -/
def estimate_account_creation_date (user_id : Int) : ℚ :=
  let c := closestRef user_id
  (c.2 : ℚ) + ((user_id - c.1 : Int) : ℚ) / 20000000

/-! ## Entity records (fields of the Pyrogram objects the code reads) -/

/-- A resolved Pyrogram user object, with the attributes `get_user_info`
reads.  `status` holds `str(user.status)` when `user.status` is truthy;
`photo` is the truthiness of `user.photo`. -/
structure TUser where
  id : Int
  first_name : Option String
  last_name : Option String
  username : Option String
  is_bot : Bool
  is_premium : Bool
  is_verified : Bool
  is_scam : Bool
  is_fake : Bool
  dc_id : Option Int
  status : Option String
  photo : Bool
deriving DecidableEq, Repr

/-- A resolved Pyrogram chat object (group / supergroup / channel), with
the attributes the code reads.  `type_` is `obj.type.value`.  `photo`
records whether the chat has a photo; the code never reads it on the chat
paths, but the platform record carries it. -/
structure TChat where
  id : Int
  title : String
  username : Option String
  description : Option String
  is_verified : Bool
  is_scam : Bool
  is_fake : Bool
  photo : Bool
  type_ : String
deriving DecidableEq, Repr

/-! ## Per-field rendering (lines 125–237) -/

/-- Lines 131–139: classify `user.status` (`none` = falsy `user.status`). -/
def classifyStatus (status : Option String) : String :=
  match status with
  | none => "Unknown"
  | some s =>
    let u := pyUpper s
    if containsSub u.data "ONLINE".data then "Online"
    else if containsSub u.data "OFFLINE".data then "Offline"
    else if containsSub u.data "RECENTLY".data then "Recently online"
    else "Unknown"

/-- The `t.me` userpic URL for a username. -/
def userpicUrl (uname : String) : String :=
  "https://t.me/i/userpic/320/" ++ uname ++ ".jpg"

/-- Lines 141–143: user profile-picture URL, gated on
`user.photo and user.username`. -/
def userProfilePic (u : TUser) : String :=
  if u.photo && pyTruthy u.username then
    userpicUrl (u.username.getD "")
  else "No Profile Picture"

/-- Lines 178–180 / 211–213: chat profile-picture URL, gated on
`chat.username` only (the photo flag is not consulted). -/
def chatProfilePic (c : TChat) : String :=
  if pyTruthy c.username then userpicUrl (c.username.getD "")
  else "No Profile Picture"

/-- Lines 147–150: `@username` or the "No Username" placeholder. -/
def usernameDisplay (u : TUser) : String :=
  if pyTruthy u.username then "@" ++ u.username.getD "" else "No Username"

/-- Line 155: the Name line of the user block,
`↯ Name: {user.first_name or ''} {user.last_name or ''}`. -/
def userNameLine (u : TUser) : String :=
  "↯ Name: " ++ pyOrStr u.first_name "" ++ " " ++ pyOrStr u.last_name ""

/-- Lines 188 / 221: `↯ Username: @{chat.username or 'N/A'}`. -/
def chatUsernameDisplay (c : TChat) : String :=
  "@" ++ pyOrStr c.username "N/A"

/-- Lines 198 / 231: `{chat.description or 'No description'}`. -/
def chatDescriptionDisplay (c : TChat) : String :=
  pyOrStr c.description "No description"

/-- Lines 182 / 215: `"Unsafe" if is_scam else "Safe"`. -/
def safetyStatus (scam : Bool) : String := if scam then "Unsafe" else "Safe"

/-! ## External collaborators and the endpoint -/

/-- Result of `bot.get_users(target)`: success, the distinguishable
`PeerIdInvalid` error, or any other exception. -/
inductive UserLookup where
  | ok : TUser → UserLookup
  | peerIdInvalid : UserLookup
  | otherError : UserLookup

/-- Result of `bot.get_chat(target)`: success or an exception whose
message is interpolated into the 400 detail. -/
inductive ChatLookup where
  | ok : TChat → ChatLookup
  | err : String → ChatLookup

/-- The external Pyrogram client plus wall-clock-dependent date rendering:
`members_count` is `bot.get_chat_members_count` (`none` = exception);
`strftime` renders `creation_date.strftime('%b %d, %Y')` and `age_of`
renders `calculate_account_age creation_date` — both are functions of the
estimated creation ordinal, abstracted because `calculate_account_age`
reads `datetime.now()`. -/
structure Oracle where
  get_users : Target → UserLookup
  get_chat : Target → ChatLookup
  members_count : Int → Option Int
  strftime : ℚ → String
  age_of : ℚ → String

/-- An HTTP outcome of the endpoint: a `200 text/plain` body, an
`HTTPException(status_code, detail)`, or an unhandled Python exception
(500), which line 100 raises when `identifier or username` is `None`
while `identifier` is `Some ""`. -/
inductive Response where
  | ok : String → Response
  | httpError : Nat → String → Response
  | crash : Response
deriving DecidableEq

/-- Line 95–98 detail. -/
def missingParamDetail : String :=
  "Please supply ?identifier=<username|user_id> or ?username=<username|user_id>"

/-- Lines 109–115 detail. -/
def noMutualDetail : String :=
  "Bot has no access to this user. The user must start the bot or share a common group/channel with the bot before their profile can be fetched."

/-- The user block (lines 125–168). -/
def formatUser (o : Oracle) (u : TUser) : String :=
  let creation := estimate_account_creation_date u.id
  let header := if u.is_bot then "Bot Info" else "User Info"
  "\n✘「 " ++ header ++ " 」\n"
    ++ userNameLine u ++ "\n"
    ++ " ↯ Username: " ++ usernameDisplay u ++ "\n"
    ++ "↯ User ID: " ++ toString u.id ++ "\n"
    ++ "↯ Premium: " ++ yesNo u.is_premium ++ "\n"
    ++ "↯ Verified: " ++ yesNo u.is_verified ++ "\n"
    ++ "↯ Scam: " ++ yesNo u.is_scam ++ "\n"
    ++ "↯ Fake: " ++ yesNo u.is_fake ++ "\n"
    ++ "↯ Data Center: " ++ dcGet u.dc_id ++ "\n"
    ++ "↯ Status: " ++ classifyStatus u.status ++ "\n"
    ++ "↯ Created: " ++ o.strftime creation ++ "\n"
    ++ "↯ Age: " ++ o.age_of creation ++ "\n"
    ++ "↯ Profile Pic URL: " ++ userProfilePic u ++ "\n            "

/-- Member-count display (lines 173–176 / 205–209): degrade a failed
`get_chat_members_count` call to `"Unknown"`. -/
def membersDisplay (o : Oracle) (chatId : Int) : String :=
  match o.members_count chatId with
  | some n => toString n
  | none => "Unknown"

/-- The group / supergroup block (lines 171–201). -/
def formatGroup (o : Oracle) (entity_type : String) (c : TChat) : String :=
  "\n✘「 Group Information ↯ 」\n"
    ++ "↯ Title: " ++ c.title ++ "\n"
    ++ "↯ Username: " ++ chatUsernameDisplay c ++ "\n"
    ++ "↯ Chat ID: " ++ toString c.id ++ "\n"
    ++ "↯ Type: " ++ pyCapitalize entity_type ++ "\n"
    ++ "↯ Members Count: " ++ membersDisplay o c.id ++ "\n\n"
    ++ "↯ Verified: " ++ yesNo c.is_verified ++ "\n"
    ++ "↯ Scam: " ++ yesNo c.is_scam ++ "\n"
    ++ "↯ Fake: " ++ yesNo c.is_fake ++ "\n"
    ++ "↯ Safety Status: " ++ safetyStatus c.is_scam ++ "\n\n"
    ++ "↯ Description: " ++ chatDescriptionDisplay c ++ "\n"
    ++ "↯ Profile Pic URL: " ++ chatProfilePic c ++ "\n            "

/-- The channel block (lines 204–234). -/
def formatChannel (o : Oracle) (c : TChat) : String :=
  "\n✘「 Channel Information ↯ 」\n"
    ++ "↯ Title: " ++ c.title ++ "\n"
    ++ "↯ Username: " ++ chatUsernameDisplay c ++ "\n"
    ++ "↯ Chat ID: " ++ toString c.id ++ "\n"
    ++ "↯ Type: Channel\n"
    ++ "↯ Members Count: " ++ membersDisplay o c.id ++ "\n\n"
    ++ "↯ Verified: " ++ yesNo c.is_verified ++ "\n"
    ++ "↯ Scam: " ++ yesNo c.is_scam ++ "\n"
    ++ "↯ Fake: " ++ yesNo c.is_fake ++ "\n"
    ++ "↯ Safety Status: " ++ safetyStatus c.is_scam ++ "\n\n"
    ++ "↯ Description: " ++ chatDescriptionDisplay c ++ "\n"
    ++ "↯ Profile Pic URL: " ++ chatProfilePic c ++ "\n            "

/-- Dispatch on the resolved chat's `type.value` (lines 171, 204, 237). -/
def formatChat (o : Oracle) (c : TChat) : Response :=
  if c.type_ = "group" ∨ c.type_ = "supergroup" then
    Response.ok (formatGroup o c.type_ c)
  else if c.type_ = "channel" then
    Response.ok (formatChannel o c)
  else Response.ok "Unknown entity."

/-- The `/get_user_info` endpoint (lines 76–237). -/
def get_user_info (o : Oracle) (identifier username : Option String) :
    Response :=
  if identifier = none ∧ username = none then
    Response.httpError 400 missingParamDetail
  else
    match pyOrOpt identifier username with
    | none => Response.crash
    | some raw =>
      let key := pyLstripAt raw
      let target := parseTarget key
      match o.get_users target with
      | UserLookup.ok u => Response.ok (formatUser o u)
      | UserLookup.peerIdInvalid => Response.httpError 403 noMutualDetail
      | UserLookup.otherError =>
        match o.get_chat target with
        | ChatLookup.ok c => formatChat o c
        | ChatLookup.err e => Response.httpError 400 ("Error: " ++ e)

/-! ## Helper lemmas -/

/-- `dropWhile (· == '@')` removes exactly the leading `'@'` run. -/
theorem dropWhile_at_decomp (l : List Char) :
    (∃ n, l = List.replicate n '@' ++ l.dropWhile (fun c => c == '@'))
      ∧ (l.dropWhile (fun c => c == '@')).head? ≠ some '@' := by
  induction l with
  | nil => exact ⟨⟨0, rfl⟩, by simp⟩
  | cons c cs ih =>
    by_cases hc : c = '@'
    · subst hc
      obtain ⟨⟨n, hn⟩, hh⟩ := ih
      refine ⟨⟨n + 1, ?_⟩, ?_⟩
      · simpa [List.replicate_succ] using congrArg (List.cons '@') hn
      · simpa using hh
    · have hb : (c == '@') = false := by simpa using hc
      refine ⟨⟨0, by simp [List.dropWhile, hb]⟩, ?_⟩
      simp [List.dropWhile, hb, hc]

/-- `pyIsdigit` in propositional form. -/
theorem pyIsdigit_iff (s : String) :
    pyIsdigit s = true ↔ s.data ≠ [] ∧ ∀ c ∈ s.data, c.isDigit = true := by
  simp [pyIsdigit, List.all_eq_true, List.isEmpty_iff]

/-! ## Claims -/

/-- C3 counterexample: the code uses `lstrip("@")`, which strips ALL
leading `'@'` characters: an identifier beginning with `"@@"` does NOT
keep one `"@"` after normalization. -/
theorem C3_counterexample :
    pyLstripAt "@@user" = "user" ∧ pyLstripAt "@@user" ≠ "@user" := by
  exact ⟨rfl, by decide⟩

/-- C3 (amended): the normalized key is obtained by stripping the whole
leading run of `'@'` characters — the input is a block of `'@'`s followed
by the normalized key, and the normalized key never begins with `'@'`. -/
theorem C3_amended (s : String) :
    (∃ n, s.data = List.replicate n '@' ++ (pyLstripAt s).data)
      ∧ (pyLstripAt s).data.head? ≠ some '@' := by
  simpa [pyLstripAt] using dropWhile_at_decomp s.data

/-- C4: after `'@'`-stripping, a nonempty all-decimal-digit key is parsed
as an integer target, and any key containing a non-digit character (even
one starting with digits) is kept as a string handle. -/
theorem C4_parse_characterization (key : String) :
    parseTarget key =
      if key.data ≠ [] ∧ ∀ c ∈ key.data, c.isDigit = true then
        Target.int (pyParseNat key)
      else Target.str key := by
  by_cases h : key.data ≠ [] ∧ ∀ c ∈ key.data, c.isDigit = true
  · rw [if_pos h, parseTarget, if_pos ((pyIsdigit_iff key).mpr h)]
  · rw [if_neg h, parseTarget,
      if_neg (fun hb => h ((pyIsdigit_iff key).mp hb))]

/-- C6: a DC-location lookup for any key outside the table (also for an
absent `dc_id`) yields the literal `"Unknown"` rather than failing, and
the entry for DC 1 contains `"Miami"`. -/
theorem C6_dc_lookup :
    (∀ n : Int, (∀ p ∈ DC_LOCATIONS, p.1 ≠ n) → dcGet (some n) = "Unknown")
      ∧ dcGet none = "Unknown"
      ∧ containsSub (dcGet (some 1)).data "Miami".data = true := by
  refine ⟨?_, rfl, rfl⟩
  intro n h
  have hf : DC_LOCATIONS.find? (fun p => p.1 == n) = none := by
    rw [List.find?_eq_none]
    intro p hp
    simpa using h p hp
  simp [dcGet, hf]

/-- C6 witness: DC id 6 lies in the observed 1–21 range but not in the
table, and degrades to `"Unknown"`. -/
theorem C6_witness : dcGet (some 6) = "Unknown" :=
  C6_dc_lookup.1 6 (by decide)

/-- C2 counterexample: a raw status value containing the word "offline"
(case-insensitively) is NOT always classified as `"Offline"`: when it also
contains "online", the earlier `"ONLINE" in status_str` test wins. -/
theorem C2_counterexample :
    containsSub (pyUpper "online and offline").data "OFFLINE".data = true
      ∧ classifyStatus (some "online and offline") = "Online"
      ∧ classifyStatus (some "online and offline") ≠ "Offline" := by
  exact ⟨rfl, rfl, by decide⟩

/-- C2 (amended): the displayed status is always exactly one of
`"Online"`, `"Offline"`, `"Recently online"`, `"Unknown"`, chosen by a
case-insensitive substring match in that priority order; a raw status
containing "offline" but NOT "online" (case-insensitively) is classified
as `"Offline"`. -/
theorem C2_amended (s : Option String) :
    (classifyStatus s = "Online" ∨ classifyStatus s = "Offline"
        ∨ classifyStatus s = "Recently online" ∨ classifyStatus s = "Unknown")
      ∧ (∀ raw, s = some raw →
          containsSub (pyUpper raw).data "OFFLINE".data = true →
          containsSub (pyUpper raw).data "ONLINE".data = false →
          classifyStatus s = "Offline") := by
  constructor
  · match s with
    | none => simp [classifyStatus]
    | some raw =>
      simp only [classifyStatus]
      split_ifs <;> simp
  · intro raw hs h1 h2
    subst hs
    simp [classifyStatus, h1, h2]

/-- C2 witness: the raw value `"offline"` is classified `"Offline"`. -/
theorem C2_witness : classifyStatus (some "offline") = "Offline" :=
  (C2_amended (some "offline")).2 "offline" rfl rfl rfl

/-- The userpic URL is never the placeholder string. -/
theorem userpicUrl_ne_placeholder (s : String) :
    userpicUrl s ≠ "No Profile Picture" := by
  intro h
  have hh := congrArg (fun t => t.data.head?) h
  simp [userpicUrl, String.data_append] at hh

/-- C7 counterexample: for a group with NO photo but a username, the code
still renders the userpic URL — the photo flag is only consulted on the
user path, not for groups/supergroups/channels. -/
theorem C7_counterexample :
    chatProfilePic
        { id := 1, title := "T", username := some "grp", description := none,
          is_verified := false, is_scam := false, is_fake := false,
          photo := false, type_ := "group" }
        = "https://t.me/i/userpic/320/grp.jpg"
      ∧ chatProfilePic
        { id := 1, title := "T", username := some "grp", description := none,
          is_verified := false, is_scam := false, is_fake := false,
          photo := false, type_ := "group" }
        ≠ "No Profile Picture" := by
  exact ⟨rfl, by decide⟩

/-- C7 (amended): for a USER, the userpic URL is rendered only when both
the photo flag and a username are present, otherwise the placeholder; for
a chat (group/supergroup/channel), the photo flag is ignored and the
placeholder appears exactly when the username is missing/empty. -/
theorem C7_amended (u : TUser) (c : TChat) :
    (userProfilePic u = "No Profile Picture"
        ∨ (u.photo = true ∧ pyTruthy u.username = true
            ∧ userProfilePic u = userpicUrl (u.username.getD "")))
      ∧ chatProfilePic c = chatProfilePic { c with photo := !c.photo }
      ∧ (chatProfilePic c = "No Profile Picture" ↔ pyTruthy c.username = false) := by
  refine ⟨?_, rfl, ?_⟩
  · by_cases hp : u.photo && pyTruthy u.username
    · right
      have hp' : u.photo = true ∧ pyTruthy u.username = true := by
        simpa using hp
      rcases hp' with ⟨h1, h2⟩
      exact ⟨h1, h2, by simp [userProfilePic, h1, h2]⟩
    · left
      simp only [userProfilePic]
      rw [if_neg (by simpa using hp)]
  · constructor
    · intro h
      by_contra hu
      have hu' : pyTruthy c.username = true := by
        cases hpt : pyTruthy c.username
        · exact absurd hpt hu
        · rfl
      rw [chatProfilePic, if_pos hu'] at h
      exact userpicUrl_ne_placeholder _ h
    · intro h
      rw [chatProfilePic, if_neg (by simp [h])]

/-- C8 counterexample: a user with a missing last name renders an EMPTY
fragment (no placeholder) in the Name line — the line ends in a blank. -/
theorem C8_counterexample :
    userNameLine
        { id := 7, first_name := some "John", last_name := none,
          username := none, is_bot := false, is_premium := false,
          is_verified := false, is_scam := false, is_fake := false,
          dc_id := none, status := none, photo := false }
        = "↯ Name: John "
      ∧ containsSub "↯ Name: John ".data "N/A".data = false := by
  exact ⟨rfl, rfl⟩

/-- C8 (amended): a missing username renders `"No Username"` (user) or
`"@N/A"` (chat), a missing description renders `"No description"`, a
missing photo renders `"No Profile Picture"` on the user path — but a
missing last name renders as the EMPTY string in the Name line, not as a
placeholder. -/
theorem C8_amended (u : TUser) (c : TChat) :
    (u.username = none → usernameDisplay u = "No Username")
      ∧ (u.photo = false → userProfilePic u = "No Profile Picture")
      ∧ (u.last_name = none →
          userNameLine u = "↯ Name: " ++ pyOrStr u.first_name "" ++ " ")
      ∧ (c.username = none → chatUsernameDisplay c = "@N/A")
      ∧ (c.description = none → chatDescriptionDisplay c = "No description") := by
  refine ⟨?_, ?_, ?_, ?_, ?_⟩ <;> intro h
  · simp [usernameDisplay, pyTruthy, h]
  · simp [userProfilePic, h]
  · simp [userNameLine, pyOrStr, h]
  · simp [chatUsernameDisplay, pyOrStr, h]
  · simp [chatDescriptionDisplay, pyOrStr, h]

/-- C8 witness: a user and a chat with all optional fields absent. -/
theorem C8_witness :
    usernameDisplay
        { id := 7, first_name := some "John", last_name := none,
          username := none, is_bot := false, is_premium := false,
          is_verified := false, is_scam := false, is_fake := false,
          dc_id := none, status := none, photo := false } = "No Username"
      ∧ userProfilePic
        { id := 7, first_name := some "John", last_name := none,
          username := none, is_bot := false, is_premium := false,
          is_verified := false, is_scam := false, is_fake := false,
          dc_id := none, status := none, photo := false } = "No Profile Picture"
      ∧ userNameLine
        { id := 7, first_name := some "John", last_name := none,
          username := none, is_bot := false, is_premium := false,
          is_verified := false, is_scam := false, is_fake := false,
          dc_id := none, status := none, photo := false } = "↯ Name: John "
      ∧ chatUsernameDisplay
        { id := 1, title := "T", username := none, description := none,
          is_verified := false, is_scam := false, is_fake := false,
          photo := false, type_ := "group" } = "@N/A"
      ∧ chatDescriptionDisplay
        { id := 1, title := "T", username := none, description := none,
          is_verified := false, is_scam := false, is_fake := false,
          photo := false, type_ := "group" } = "No description" := by
  have h := C8_amended
    { id := 7, first_name := some "John", last_name := none,
      username := none, is_bot := false, is_premium := false,
      is_verified := false, is_scam := false, is_fake := false,
      dc_id := none, status := none, photo := false }
    { id := 1, title := "T", username := none, description := none,
      is_verified := false, is_scam := false, is_fake := false,
      photo := false, type_ := "group" }
  exact ⟨h.1 rfl, h.2.1 rfl, by simpa using h.2.2.1 rfl, h.2.2.2.1 rfl,
    h.2.2.2.2 rfl⟩

/-- C1: whenever the user lookup for the parsed target reports the
distinguishable access-restricted error (`PeerIdInvalid`), the request
fails immediately with a 403 whose detail mentions starting the bot /
sharing a common group, and the chat-resolution collaborator is never
consulted (the response is unchanged under any replacement of it). -/
theorem C1_peer_invalid_403 (o : Oracle) (identifier username : Option String)
    (raw : String)
    (hraw : pyOrOpt identifier username = some raw)
    (hpeer : o.get_users (parseTarget (pyLstripAt raw))
      = UserLookup.peerIdInvalid) :
    get_user_info o identifier username = Response.httpError 403 noMutualDetail
      ∧ containsSub noMutualDetail.data "start the bot".data = true
      ∧ containsSub noMutualDetail.data "common group/channel".data = true
      ∧ ∀ gc : Target → ChatLookup,
          get_user_info { o with get_chat := gc } identifier username
            = Response.httpError 403 noMutualDetail := by
  have hnotmiss : ¬(identifier = none ∧ username = none) := by
    rintro ⟨h1, h2⟩
    rw [h1, h2] at hraw
    exact Option.noConfusion hraw
  refine ⟨?_, rfl, rfl, ?_⟩
  · rw [get_user_info, if_neg hnotmiss, hraw]
    simp only [hpeer]
  · intro gc
    rw [get_user_info, if_neg hnotmiss, hraw]
    simp only [hpeer]

/-- C1 witness: a numeric request against a client that reports
`PeerIdInvalid` yields the 403 with the mutual-contact message. -/
theorem C1_witness :
    get_user_info
        { get_users := fun _ => UserLookup.peerIdInvalid,
          get_chat := fun _ => ChatLookup.err "x",
          members_count := fun _ => none,
          strftime := fun _ => "", age_of := fun _ => "" }
        (some "123") none
        = Response.httpError 403 noMutualDetail
      ∧ containsSub noMutualDetail.data "start the bot".data = true := by
  have h := C1_peer_invalid_403
    { get_users := fun _ => UserLookup.peerIdInvalid,
      get_chat := fun _ => ChatLookup.err "x",
      members_count := fun _ => none,
      strftime := fun _ => "", age_of := fun _ => "" }
    (some "123") none "123" rfl rfl
  exact ⟨h.1, h.2.1⟩

/-- C9 counterexample: with `identifier = ""` and `username = "abc"`, the
lookup key comes from `username` — Python's `identifier or username`
treats the empty string as falsy, so `identifier` does NOT win for every
supplied pair.  (The oracle below distinguishes the two keys: only the
`"abc"` target reports `PeerIdInvalid`, and the response is the 403, so
the code looked up `"abc"`, not `""`.) -/
theorem C9_counterexample :
    pyOrOpt (some "") (some "abc") = some "abc"
      ∧ get_user_info
          { get_users := fun t =>
              if t = Target.str "abc" then UserLookup.peerIdInvalid
              else UserLookup.otherError,
            get_chat := fun _ => ChatLookup.err "E",
            members_count := fun _ => none,
            strftime := fun _ => "", age_of := fun _ => "" }
          (some "") (some "abc")
          = Response.httpError 403 noMutualDetail := by
  exact ⟨rfl, rfl⟩

/-- C9 (amended): a supplied NON-EMPTY `identifier` determines the lookup
key regardless of `username`; an empty-string `identifier` falls back to
`username`, behaving exactly as if only `username` had been supplied. -/
theorem C9_amended (o : Oracle) (s : String) (usn : Option String) :
    (s ≠ "" → get_user_info o (some s) usn = get_user_info o (some s) none)
      ∧ ∀ u : String,
          get_user_info o (some "") (some u)
            = get_user_info o none (some u) := by
  constructor
  · intro hs
    have hb : (s == "") = false := by simpa using hs
    rw [get_user_info, get_user_info,
      if_neg (by rintro ⟨h, -⟩; exact Option.noConfusion h),
      if_neg (by rintro ⟨h, -⟩; exact Option.noConfusion h)]
    simp only [pyOrOpt, hb, Bool.false_eq_true, if_false]
  · intro u
    rw [get_user_info, get_user_info,
      if_neg (by rintro ⟨-, h⟩; exact Option.noConfusion h),
      if_neg (by rintro ⟨-, h⟩; exact Option.noConfusion h)]
    rfl

/-- C9 witness: concrete instances of both amended conjuncts. -/
theorem C9_witness :
    get_user_info
        { get_users := fun _ => UserLookup.otherError,
          get_chat := fun _ => ChatLookup.err "E",
          members_count := fun _ => none,
          strftime := fun _ => "", age_of := fun _ => "" }
        (some "abc") (some "zzz")
        = get_user_info
          { get_users := fun _ => UserLookup.otherError,
            get_chat := fun _ => ChatLookup.err "E",
            members_count := fun _ => none,
            strftime := fun _ => "", age_of := fun _ => "" }
          (some "abc") none
      ∧ get_user_info
          { get_users := fun _ => UserLookup.otherError,
            get_chat := fun _ => ChatLookup.err "E",
            members_count := fun _ => none,
            strftime := fun _ => "", age_of := fun _ => "" }
          (some "") (some "u")
          = get_user_info
            { get_users := fun _ => UserLookup.otherError,
              get_chat := fun _ => ChatLookup.err "E",
              members_count := fun _ => none,
              strftime := fun _ => "", age_of := fun _ => "" }
            none (some "u") := by
  have h := C9_amended
    { get_users := fun _ => UserLookup.otherError,
      get_chat := fun _ => ChatLookup.err "E",
      members_count := fun _ => none,
      strftime := fun _ => "", age_of := fun _ => "" }
    "abc" (some "zzz")
  exact ⟨h.1 (by decide), h.2 "u"⟩

/-! ### Estimator region analysis -/

/-- For inputs up to the first midpoint (ties go to the earlier row), the
first reference point is selected. -/
theorem closestRef_r1 (u : Int) (h : u ≤ 686920751) :
    closestRef u = (100000000, toOrdinal 2013 8 1) := by
  simp only [closestRef, pyMinAbs, List.foldl]
  split_ifs <;> first | rfl | omega

/-- Between the first and second midpoints, the second reference point is
selected. -/
theorem closestRef_r2 (u : Int) (h1 : 686920752 ≤ u) (h2 : u ≤ 1386920751) :
    closestRef u = (1273841502, toOrdinal 2020 8 13) := by
  simp only [closestRef, pyMinAbs, List.foldl]
  split_ifs <;> first | rfl | omega

/-- Between the second and third midpoints, the third reference point is
selected. -/
theorem closestRef_r3 (u : Int) (h1 : 1386920752 ≤ u) (h2 : u ≤ 1750000000) :
    closestRef u = (1500000000, toOrdinal 2021 5 1) := by
  simp only [closestRef, pyMinAbs, List.foldl]
  split_ifs <;> first | rfl | omega

/-- Past the third midpoint, the fourth reference point is selected. -/
theorem closestRef_r4 (u : Int) (h : 1750000001 ≤ u) :
    closestRef u = (2000000000, toOrdinal 2022 12 1) := by
  simp only [closestRef, pyMinAbs, List.foldl]
  split_ifs <;> first | rfl | omega

/-- The estimate in the first region. -/
theorem estimate_eq_r1 (u : Int) (h : u ≤ 686920751) :
    estimate_account_creation_date u
      = ((toOrdinal 2013 8 1 : ℕ) : ℚ)
        + ((u - 100000000 : Int) : ℚ) / 20000000 := by
  rw [estimate_account_creation_date, closestRef_r1 u h]

/-- The estimate in the second region. -/
theorem estimate_eq_r2 (u : Int) (h1 : 686920752 ≤ u) (h2 : u ≤ 1386920751) :
    estimate_account_creation_date u
      = ((toOrdinal 2020 8 13 : ℕ) : ℚ)
        + ((u - 1273841502 : Int) : ℚ) / 20000000 := by
  rw [estimate_account_creation_date, closestRef_r2 u h1 h2]

/-- The estimate in the third region. -/
theorem estimate_eq_r3 (u : Int) (h1 : 1386920752 ≤ u) (h2 : u ≤ 1750000000) :
    estimate_account_creation_date u
      = ((toOrdinal 2021 5 1 : ℕ) : ℚ)
        + ((u - 1500000000 : Int) : ℚ) / 20000000 := by
  rw [estimate_account_creation_date, closestRef_r3 u h1 h2]

/-- The estimate in the fourth region. -/
theorem estimate_eq_r4 (u : Int) (h : 1750000001 ≤ u) :
    estimate_account_creation_date u
      = ((toOrdinal 2022 12 1 : ℕ) : ℚ)
        + ((u - 2000000000 : Int) : ℚ) / 20000000 := by
  rw [estimate_account_creation_date, closestRef_r4 u h]

/-- C5: the estimator selects the reference point numerically closest to
the input id with ties broken by table order (the selected row minimizes
the distance, and any row achieving the same distance appears no earlier);
an input equal to a reference id returns that row's date unmodified, and
id 1273841502 returns the ordinal of August 13, 2020. -/
theorem C5_closest_reference :
    (∀ user_id : Int, closestRef user_id ∈ reference_points
        ∧ ∀ q ∈ reference_points,
            ((closestRef user_id).1 - user_id).natAbs
              ≤ (q.1 - user_id).natAbs)
      ∧ (∀ user_id : Int, ∀ q ∈ reference_points,
          (q.1 - user_id).natAbs
              = ((closestRef user_id).1 - user_id).natAbs →
            reference_points.indexOf (closestRef user_id)
              ≤ reference_points.indexOf q)
      ∧ (∀ p ∈ reference_points,
          estimate_account_creation_date p.1 = ((p.2 : ℕ) : ℚ))
      ∧ estimate_account_creation_date 1273841502
          = ((toOrdinal 2020 8 13 : ℕ) : ℚ) := by
  have hregions : ∀ u : Int,
      (u ≤ 686920751 ∧ closestRef u = (100000000, toOrdinal 2013 8 1))
        ∨ (686920752 ≤ u ∧ u ≤ 1386920751
            ∧ closestRef u = (1273841502, toOrdinal 2020 8 13))
        ∨ (1386920752 ≤ u ∧ u ≤ 1750000000
            ∧ closestRef u = (1500000000, toOrdinal 2021 5 1))
        ∨ (1750000001 ≤ u
            ∧ closestRef u = (2000000000, toOrdinal 2022 12 1)) := by
    intro u
    rcases le_or_lt u 686920751 with h | h
    · exact Or.inl ⟨h, closestRef_r1 u h⟩
    rcases le_or_lt u 1386920751 with h2 | h2
    · exact Or.inr (Or.inl ⟨by omega, h2, closestRef_r2 u (by omega) h2⟩)
    rcases le_or_lt u 1750000000 with h3 | h3
    · exact Or.inr (Or.inr (Or.inl ⟨by omega, h3,
        closestRef_r3 u (by omega) h3⟩))
    · exact Or.inr (Or.inr (Or.inr ⟨by omega, closestRef_r4 u (by omega)⟩))
  refine ⟨?_, ?_, ?_, ?_⟩
  · intro u
    rcases hregions u with ⟨h, hc⟩ | ⟨h1, h2, hc⟩ | ⟨h1, h2, hc⟩ | ⟨h1, hc⟩ <;>
      rw [hc] <;>
      exact ⟨by simp [reference_points],
        by simp only [reference_points, List.mem_cons, List.not_mem_nil,
             or_false]
           rintro q (rfl | rfl | rfl | rfl) <;> simp <;> omega⟩
  · intro u q hq htie
    have i1 : reference_points.indexOf ((100000000 : Int), toOrdinal 2013 8 1)
        = 0 := by decide
    have i2 : reference_points.indexOf
        ((1273841502 : Int), toOrdinal 2020 8 13) = 1 := by decide
    have i3 : reference_points.indexOf
        ((1500000000 : Int), toOrdinal 2021 5 1) = 2 := by decide
    have i4 : reference_points.indexOf
        ((2000000000 : Int), toOrdinal 2022 12 1) = 3 := by decide
    rcases hregions u with ⟨h, hc⟩ | ⟨h1, h2, hc⟩ | ⟨h1, h2, hc⟩ | ⟨h1, hc⟩ <;>
      rw [hc] at htie ⊢ <;>
      simp only [reference_points, List.mem_cons, List.not_mem_nil,
        or_false] at hq <;>
      rcases hq with rfl | rfl | rfl | rfl <;>
      simp only [i1, i2, i3, i4] <;> omega
  · intro p hp
    simp only [reference_points, List.mem_cons, List.not_mem_nil,
      or_false] at hp
    rcases hp with rfl | rfl | rfl | rfl
    · rw [estimate_eq_r1 _ (by norm_num)]; norm_num
    · rw [estimate_eq_r2 _ (by norm_num) (by norm_num)]; norm_num
    · rw [estimate_eq_r3 _ (by norm_num) (by norm_num)]; norm_num
    · rw [estimate_eq_r4 _ (by norm_num)]; norm_num
  · rw [estimate_eq_r2 _ (by norm_num) (by norm_num)]; norm_num

/-- C5 witness: at the exact midpoint 686920751 the two nearest rows tie
and the FIRST row wins; id 1273841502 maps to the August 13, 2020 date. -/
theorem C5_witness :
    ((1273841502 : Int), toOrdinal 2020 8 13) ∈ reference_points
      ∧ (((1273841502 : Int), toOrdinal 2020 8 13).1 - 686920751).natAbs
          = ((closestRef 686920751).1 - 686920751).natAbs
      ∧ reference_points.indexOf (closestRef 686920751)
          ≤ reference_points.indexOf
            ((1273841502 : Int), toOrdinal 2020 8 13)
      ∧ estimate_account_creation_date 1273841502
          = ((toOrdinal 2020 8 13 : ℕ) : ℚ) := by
  refine ⟨by decide, by decide, ?_, C5_closest_reference.2.2.2⟩
  exact C5_closest_reference.2.1 686920751
    ((1273841502 : Int), toOrdinal 2020 8 13) (by decide) (by decide)

/-- One increment never decreases the estimate: within a region the slope
is `1/20000000 > 0`, and at each of the three region boundaries the next
anchor's date exceeds the jump backwards in offset. -/
theorem estimate_step_mono (n : ℕ) :
    estimate_account_creation_date (n : Int)
      ≤ estimate_account_creation_date ((n : Int) + 1) := by
  have hcast : ∀ x y : Int, x ≤ y → ((x : ℚ) ≤ (y : ℚ)) := by
    intro x y h
    exact_mod_cast h
  have e1 : toOrdinal 2013 8 1 = 735081 := rfl
  have e2 : toOrdinal 2020 8 13 = 737650 := rfl
  have e3 : toOrdinal 2021 5 1 = 737911 := rfl
  have e4 : toOrdinal 2022 12 1 = 738490 := rfl
  rcases lt_trichotomy (n : Int) 686920751 with h | h | h
  · rw [estimate_eq_r1 _ (by omega), estimate_eq_r1 _ (by omega)]
    have := hcast ((n : Int) - 100000000) ((n : Int) + 1 - 100000000)
      (by omega)
    linarith
  · rw [estimate_eq_r1 _ (by omega), estimate_eq_r2 _ (by omega) (by omega),
      h, e1, e2]
    norm_num
  rcases lt_trichotomy (n : Int) 1386920751 with h2 | h2 | h2
  · rw [estimate_eq_r2 _ (by omega) (by omega),
      estimate_eq_r2 _ (by omega) (by omega)]
    have := hcast ((n : Int) - 1273841502) ((n : Int) + 1 - 1273841502)
      (by omega)
    linarith
  · rw [estimate_eq_r2 _ (by omega) (by omega),
      estimate_eq_r3 _ (by omega) (by omega), h2, e2, e3]
    norm_num
  rcases lt_trichotomy (n : Int) 1750000000 with h3 | h3 | h3
  · rw [estimate_eq_r3 _ (by omega) (by omega),
      estimate_eq_r3 _ (by omega) (by omega)]
    have := hcast ((n : Int) - 1500000000) ((n : Int) + 1 - 1500000000)
      (by omega)
    linarith
  · rw [estimate_eq_r3 _ (by omega) (by omega), estimate_eq_r4 _ (by omega),
      h3, e3, e4]
    norm_num
  · rw [estimate_eq_r4 _ (by omega), estimate_eq_r4 _ (by omega)]
    have := hcast ((n : Int) - 2000000000) ((n : Int) + 1 - 2000000000)
      (by omega)
    linarith

/-- C10: the account-age estimator is monotonically nondecreasing over the
non-negative user ids, across the segment boundaries where the nearest
reference point changes. -/
theorem C10_estimate_monotone (a b : ℕ) (hab : a ≤ b) :
    estimate_account_creation_date (a : Int)
      ≤ estimate_account_creation_date (b : Int) := by
  have hmono : Monotone (fun n : ℕ => estimate_account_creation_date (n : Int)) :=
    monotone_nat_of_le_succ (fun n => by
      simpa [Nat.cast_add, Nat.cast_one] using estimate_step_mono n)
  exact hmono hab

/-- C10 witness: the estimate at id 100 is at most the estimate at id
2000000000 (the ids straddle all three segment boundaries). -/
theorem C10_witness :
    estimate_account_creation_date ((100 : ℕ) : Int)
      ≤ estimate_account_creation_date ((2000000000 : ℕ) : Int) :=
  C10_estimate_monotone 100 2000000000 (by norm_num)

end TgInfo
